import Mathlib

/-!
A shallow embedding of the ai-image-generator sources, covering the
prompt enhancer (src/gigachat_enhancer.py), the response normalizers and the
provider dispatch (src/image_generator_core.py, src/image_generator_openrouter.py),
and the Flask surface with its background pipeline (src/app.py).

Machine-level effects are made explicit: remote calls are parameters of type
`Except String String` (success payload or error text), the filesystem is a
function from provider keys to directory listings, and the mutations of the
shared `generation_status` dict are a list of successive record values.
-/

/-- A model of the Python values the response-parsing code manipulates:
`None`, strings, lists and dicts. -/
inductive PyVal where
  | pnone
  | pstr (s : String)
  | plist (xs : List PyVal)
  | pdict (fields : List (String × PyVal))

/-- Python truthiness for the modelled values: `None`, the empty string, the
empty list and the empty dict are falsy. -/
def PyVal.truthy : PyVal → Bool
  | .pnone => false
  | .pstr s => s ≠ ""
  | .plist xs => !xs.isEmpty
  | .pdict fs => !fs.isEmpty

/-- `d.get(k)` on a dict, defaulting to `None`. On a non-dict receiver Python
would raise `AttributeError`; the model returns `None` there (none of the
inputs considered below reach that path with a payload). -/
def PyVal.get (v : PyVal) (k : String) : PyVal :=
  match v with
  | .pdict fs => (fs.lookup k).getD .pnone
  | _ => .pnone

/-- `d.get(k, dflt)` on a dict with an explicit default. -/
def PyVal.getD (v : PyVal) (k : String) (dflt : PyVal) : PyVal :=
  match v with
  | .pdict fs => (fs.lookup k).getD dflt
  | _ => .pnone

/-- `k in d` on a dict, also standing for `hasattr` in this dict-shaped model
of response messages. -/
def PyVal.hasKey (v : PyVal) (k : String) : Bool :=
  match v with
  | .pdict fs => (fs.lookup k).isSome
  | _ => false

/-- Python's `a or b`. -/
def pyOr (a b : PyVal) : PyVal := if a.truthy then a else b

/-- `isinstance(v, list)`. -/
def PyVal.isListVal : PyVal → Bool
  | .plist _ => true
  | _ => false

/-- `isinstance(v, str)`. -/
def PyVal.isStrVal : PyVal → Bool
  | .pstr _ => true
  | _ => false

/-- Python `s.startswith(pre)`, stated on the character lists of the two
strings. -/
def pyStartsWith (s pre : String) : Bool := pre.toList.isPrefixOf s.toList

/-- The whitespace characters recognised by Python's `str.strip()`
(restricted to the ASCII range). -/
def pyIsSpace (c : Char) : Bool :=
  c = ' ' || c = '\t' || c = '\n' || c = '\r' || c = '\x0b' || c = '\x0c'

/-- `str.strip()` on a character list: drop whitespace from both ends. -/
def stripChars (l : List Char) : List Char :=
  ((l.dropWhile pyIsSpace).reverse.dropWhile pyIsSpace).reverse

/-- Python `s.strip()`. -/
def pyStrip (s : String) : String := String.mk (stripChars s.toList)

/-- `s.rsplit(' ', 1)[0]` on a character list: everything before the last
space, or the whole list when no space occurs. -/
def rsplitSpaceHead (l : List Char) : List Char :=
  match l.reverse.dropWhile (fun c => c ≠ ' ') with
  | [] => l
  | _ :: rest => rest.reverse

/-- The enhanced prompt computed from a successful GigaChat reply
(`response.choices[0].message.content`), before any style suffix is appended
(src/gigachat_enhancer.py lines 55-59): `strip()`, then, when longer than
`max_length`, the truncation `enhanced[:max_length].rsplit(' ', 1)[0] + "..."`. -/
def enhancedCore (content : String) (max_length : Nat) : String :=
  let enhanced := stripChars content.toList
  if max_length < enhanced.length then
    String.mk (rsplitSpaceHead (enhanced.take max_length)) ++ "..."
  else String.mk enhanced

/-- `enhance_prompt` (src/gigachat_enhancer.py lines 18-70). The whole body
runs inside one `try`; the remote interaction (credentials lookup, the
GigaChat session, the chat call and the reply field accesses) is abstracted as
`remote`: `.ok content` is a successful reply, `.error e` any failure. The
`except` branch returns `f"{simple_prompt}, {style_suffix}"` when the suffix
is truthy, else the bare prompt. -/
def enhance_prompt (remote : Except String String) (simple_prompt : String)
    (style_suffix : String) (max_length : Nat) : String :=
  match remote with
  | .ok content =>
    let enhanced := enhancedCore content max_length
    if style_suffix ≠ "" then enhanced ++ ", " ++ style_suffix else enhanced
  | .error _ =>
    if style_suffix ≠ "" then simple_prompt ++ ", " ++ style_suffix
    else simple_prompt

/-- Python `c.isalnum()` restricted to ASCII letters and digits. -/
def pyIsAlnum (c : Char) : Bool := c.isAlphanum

/-- The character filter of the filename slug: alphanumerics, space, hyphen
and underscore survive. -/
def slugKeep (c : Char) : Bool := pyIsAlnum c || c = ' ' || c = '-' || c = '_'

/-- The filename slug
`"".join(c for c in prompt[:30] if c.isalnum() or c in (' ', '-', '_')).strip()`
followed by `.replace(' ', '_')`
(src/image_generator_core.py lines 66-67 and 154-155). -/
def safe_prompt (prompt : String) : String :=
  String.mk ((stripChars ((prompt.toList.take 30).filter slugKeep)).map
    (fun c => if c = ' ' then '_' else c))

/-- The url collected from one entry of `message.images` by
`_extract_data_urls_from_message` (src/image_generator_core.py lines 96-105):
for a dict entry, `(img.get("image_url") or {}).get("url")`; for the
non-dict values of this model, `getattr(img, "image_url", None)` yields `None`.
The url is kept only when it is a truthy string starting with `"data:image/"`. -/
def entry_data_url (img : PyVal) : Option String :=
  let url : PyVal :=
    match img with
    | .pdict _ => (pyOr (img.get "image_url") (.pdict [])).get "url"
    | _ => .pnone
  match url with
  | .pstr s => if s ≠ "" && pyStartsWith s "data:image/" then some s else none
  | _ => none

/-- `_extract_data_urls_from_message` (src/image_generator_core.py lines
77-107). The three ways the code obtains `images` (attribute access,
`model_dump()`, plain dict access) all collapse to a dict lookup in this
dict-shaped model of messages. A falsy `images` yields `[]`; the entry loop
runs over a list (iterating a truthy string or dict would visit characters
resp. keys, none of which produce a url). -/
def extract_data_urls_from_message (message : PyVal) : List String :=
  let images := message.get "images"
  if !images.truthy then []
  else
    match images with
    | .plist xs => xs.filterMap entry_data_url
    | _ => []

/-- `message.images[0]` as read by the CLI extractor: the head of a list;
indexing a string yields its first character as a one-character string;
indexing a dict with `0` raises `KeyError` in Python and is modelled as
absence. -/
def pyIndexZero : PyVal → Option PyVal
  | .plist (x :: _) => some x
  | .pstr s =>
    match s.toList with
    | c :: _ => some (.pstr (String.mk [c]))
    | [] => none
  | _ => none

/-- Shape 1 of the CLI extraction (src/image_generator_openrouter.py lines
119-124): `image_data.get("url") or image_data.get("imageUrl", {}).get("url")`
when `image_data` is a dict, else `getattr(image_data, "url", None)`. -/
def cli_shape_images (image_data : PyVal) : PyVal :=
  match image_data with
  | .pdict _ => pyOr (image_data.get "url") ((image_data.getD "imageUrl" (.pdict [])).get "url")
  | _ => .pnone

/-- Shape 2 of the CLI extraction (src/image_generator_openrouter.py lines
127-131): scan a list-valued `content` for the first dict item having an
`image_url` key and take `item["image_url"].get("url")`, then `break`. -/
def cli_shape_content_list : List PyVal → PyVal
  | [] => .pnone
  | item :: rest =>
    match item with
    | .pdict _ =>
      if item.hasKey "image_url" then (item.get "image_url").get "url"
      else cli_shape_content_list rest
    | _ => cli_shape_content_list rest

/-- The response-shape normalization inlined in the CLI `generate_image`
(src/image_generator_openrouter.py lines 116-139), returned as the `data_url`
it selects: `some` for a truthy string, `none` when `data_url` ends up falsy
(the code then raises `ValueError("Не удалось найти изображение в ответе...")`).
A truthy non-string `data_url` would crash Python later at `.split`; it is
also modelled as `none`. -/
def cli_extract_data_url (message : PyVal) : Option String :=
  let data_url : PyVal :=
    if message.hasKey "images" && (message.get "images").truthy then
      match pyIndexZero (message.get "images") with
      | some image_data => cli_shape_images image_data
      | none => .pnone
    else if message.hasKey "content" && (message.get "content").isListVal then
      match message.get "content" with
      | .plist items => cli_shape_content_list items
      | _ => .pnone
    else if message.hasKey "content" && (message.get "content").isStrVal then
      match message.get "content" with
      | .pstr s => if pyStartsWith s "data:image" then .pstr s else .pnone
      | _ => .pnone
    else .pnone
  match data_url with
  | .pstr s => if s ≠ "" then some s else none
  | _ => none

/-- The text after the first occurrence of `sep` in a character list; `none`
when `sep` does not occur. -/
def splitOnceAfter (sep : List Char) : List Char → Option (List Char)
  | [] => none
  | c :: cs =>
    if sep.isPrefixOf (c :: cs) then some ((c :: cs).drop sep.length)
    else splitOnceAfter sep cs

/-- `data_url.split("base64,", 1)[1]` as used by the OpenRouter adapter
(src/image_generator_core.py line 150): `none` models the `IndexError` Python
raises when the separator does not occur in the data url. -/
def splitAfterBase64 (data_url : String) : Option String :=
  (splitOnceAfter "base64,".toList data_url.toList).map String.mk

/-- The shared `generation_status` record (src/app.py lines 24-32). -/
structure GenStatus where
  status : String
  progress : Nat
  message : String
  image_path : Option String
  original_prompt : String
  enhanced_prompt : String
  error : Option String
deriving Repr, DecidableEq

/-- The module-level initial value of `generation_status`. -/
def initial_status : GenStatus :=
  { status := "idle", progress := 0, message := "", image_path := none,
    original_prompt := "", enhanced_prompt := "", error := none }

/-- One entry of the style catalog: display name and prompt suffix. -/
structure Style where
  name : String
  suffix : String
deriving Repr, DecidableEq

/-- `STYLES["none"]`. -/
def none_style : Style := ⟨"Без стиля", ""⟩

/-- The fixed style catalog `STYLES` (src/app.py lines 35-61). -/
def STYLES : List (String × Style) :=
  [("none", none_style),
   ("photorealistic", ⟨"Фотореализм",
      "photorealistic, high detail, professional photography, studio lighting"⟩),
   ("anime", ⟨"Аниме",
      "anime style, detailed anime art, vibrant colors, manga illustration"⟩),
   ("watercolor", ⟨"Акварель",
      "watercolor painting, soft colors, artistic, traditional art"⟩),
   ("cyberpunk", ⟨"Киберпанк",
      "cyberpunk style, neon lights, futuristic, dark atmosphere"⟩),
   ("pixel", ⟨"Пиксель-арт",
      "pixel art, 8-bit style, retro gaming aesthetic"⟩),
   ("oil", ⟨"Масляная живопись",
      "oil painting, classic art style, textured brushstrokes"⟩)]

/-- `STYLES.get(style_key, STYLES["none"])` (src/app.py line 114). -/
def styleFor (style_key : String) : Style :=
  (STYLES.lookup style_key).getD none_style

/-- The externally observable outcome of one provider adapter call: the path
of the saved file on success, the raised error's text otherwise. -/
structure AdapterEnv where
  proxyapi : String → Except String String
  openrouter : String → Except String String

/-- `generate_image` (src/image_generator_core.py lines 165-181): dispatch on
the provider key; an unregistered key raises
`ValueError(f"Неизвестный провайдер: {provider}")`. -/
def generate_image (env : AdapterEnv) (prompt : String) (provider : String) :
    Except String String :=
  if provider = "proxyapi" then env.proxyapi prompt
  else if provider = "openrouter" then env.openrouter prompt
  else .error ("Неизвестный провайдер: " ++ provider)

/-- The successive values the shared `generation_status` record takes during
`generate_image_background` (src/app.py lines 104-137), starting from `st0`
(the record as just reset by `api_generate`). `enhanceRemote` abstracts the
GigaChat interaction inside `enhance_prompt` (which itself never raises); the
only statement of the `try` block that can raise is the `generate_image` call,
and its failure is handled by the `except` branch, which assigns `status`,
`error` and `message` but not `progress`. Each list element is the record
after one contiguous block of field assignments. -/
def generate_image_background (env : AdapterEnv) (enhanceRemote : Except String String)
    (user_prompt style_key provider : String) (st0 : GenStatus) : List GenStatus :=
  let s1 : GenStatus := { st0 with
      status := "enhancing"
      progress := 20
      message := "🤖 GigaChat улучшает промпт..." }
  let style := styleFor style_key
  let enhanced := enhance_prompt enhanceRemote user_prompt style.suffix 250
  let s2 : GenStatus := { s1 with
      enhanced_prompt := enhanced
      progress := 40
      message := "✓ Промпт улучшен!" }
  let s3 : GenStatus := { s2 with
      status := "generating"
      progress := 60
      message := "🎨 Генерируем изображение через " ++ provider.toUpper ++ "..." }
  match generate_image env enhanced provider with
  | .ok image_path =>
    [s1, s2, s3, { s3 with
      status := "done"
      progress := 100
      message := "✓ Изображение готово!"
      image_path := some image_path }]
  | .error e =>
    [s1, s2, s3, { s3 with
      status := "error"
      error := some e
      message := "✗ Ошибка: " ++ e }]

/-- The JSON body of a `POST /api/generate` request; `data.get("prompt", "")`,
`data.get("style", "none")` and `data.get("provider", "proxyapi")` make the
three fields optional with those defaults. -/
structure GenRequest where
  prompt : Option String
  style : Option String
  provider : Option String

/-- The record `api_generate` installs after accepting a request
(src/app.py lines 84-92). -/
def reset_status (user_prompt : String) : GenStatus :=
  { status := "starting", progress := 0, message := "Начинаем генерацию...",
    image_path := none, original_prompt := user_prompt, enhanced_prompt := "",
    error := none }

/-- `api_generate` (src/app.py lines 70-101): the HTTP status code, the shared
status record after the call, and the argument triple of the background thread
when one is spawned. -/
def api_generate (req : GenRequest) (cur : GenStatus) :
    Nat × GenStatus × Option (String × String × String) :=
  let user_prompt := pyStrip (req.prompt.getD "")
  let style_key := req.style.getD "none"
  let provider := req.provider.getD "proxyapi"
  if user_prompt = "" then (400, cur, none)
  else (200, reset_status user_prompt, some (user_prompt, style_key, provider))

/-- One file of a provider's output directory as the gallery observes it:
name and `st_mtime` (modelled as a natural number). -/
structure FileEntry where
  filename : String
  mtime : Nat
deriving Repr, DecidableEq

/-- One element of the `/api/gallery` response. -/
structure GalleryImage where
  path : String
  filename : String
  provider : String
deriving Repr, DecidableEq

/-- The `st_mtime`-descending order produced by
`sorted(..., key=lambda x: x.stat().st_mtime, reverse=True)`. -/
def newerFirst (a b : FileEntry) : Prop := b.mtime ≤ a.mtime

instance : DecidableRel newerFirst :=
  fun a b => inferInstanceAs (Decidable (b.mtime ≤ a.mtime))

instance : IsTotal FileEntry newerFirst :=
  ⟨fun a b => le_total b.mtime a.mtime⟩

instance : IsTrans FileEntry newerFirst :=
  ⟨fun _ _ _ hab hbc => le_trans hbc hab⟩

/-- The per-provider selection of `api_gallery` (src/app.py line 154):
`sorted(img_dir.glob("*.png"), key=lambda x: x.stat().st_mtime, reverse=True)[:10]`,
or nothing when the directory does not exist. -/
def gallery_selection (fs : String → Option (List FileEntry)) (provider : String) :
    List FileEntry :=
  match fs provider with
  | none => []
  | some files =>
    (List.insertionSort newerFirst (files.filter (fun f => f.filename.endsWith ".png"))).take 10

/-- `api_gallery` (src/app.py lines 146-161): the per-provider selections of
the two provider directories, tagged with path, filename and provider. -/
def api_gallery (fs : String → Option (List FileEntry)) : List GalleryImage :=
  (["proxyapi", "openrouter"]).flatMap (fun provider =>
    (gallery_selection fs provider).map (fun f =>
      { path := "generated_images/" ++ provider ++ "/" ++ f.filename,
        filename := f.filename, provider := provider }))

/-! ## Helper lemmas -/

theorem stripChars_mem {l : List Char} {c : Char} (h : c ∈ stripChars l) : c ∈ l := by
  unfold stripChars at h
  rw [List.mem_reverse] at h
  have h1 := (List.dropWhile_sublist (l := (l.dropWhile pyIsSpace).reverse) pyIsSpace).mem h
  rw [List.mem_reverse] at h1
  exact (List.dropWhile_sublist pyIsSpace).mem h1

theorem stripChars_all_space {l : List Char} (h : ∀ c ∈ l, pyIsSpace c = true) :
    stripChars l = [] := by
  unfold stripChars
  have h1 : l.dropWhile pyIsSpace = [] := List.dropWhile_eq_nil_iff.mpr h
  simp [h1]

theorem stripChars_length_le (l : List Char) : (stripChars l).length ≤ l.length := by
  unfold stripChars
  calc ((l.dropWhile pyIsSpace).reverse.dropWhile pyIsSpace).reverse.length
      = ((l.dropWhile pyIsSpace).reverse.dropWhile pyIsSpace).length := by
        rw [List.length_reverse]
    _ ≤ (l.dropWhile pyIsSpace).reverse.length := (List.dropWhile_sublist pyIsSpace).length_le
    _ = (l.dropWhile pyIsSpace).length := by rw [List.length_reverse]
    _ ≤ l.length := (List.dropWhile_sublist pyIsSpace).length_le

theorem dropWhile_shape (p : Char → Bool) (r : List Char) :
    r.dropWhile p = [] ∨
    ∃ tk c rest, r = tk ++ c :: rest ∧ r.dropWhile p = c :: rest ∧ p c = false := by
  induction r with
  | nil => left; rfl
  | cons a as ih =>
    by_cases hp : p a = true
    · rcases ih with h | ⟨tk, c, rest, h1, h2, h3⟩
      · left; simp [List.dropWhile_cons, hp, h]
      · right
        exact ⟨a :: tk, c, rest, by simp [h1], by simp [List.dropWhile_cons, hp, h2], h3⟩
    · right
      exact ⟨[], a, as, rfl, by simp [List.dropWhile_cons, hp], by simpa using hp⟩

theorem rsplitSpaceHead_no_space {l : List Char} (h : ' ' ∉ l) : rsplitSpaceHead l = l := by
  have hnil : l.reverse.dropWhile (fun c => c ≠ ' ') = [] := by
    refine List.dropWhile_eq_nil_iff.mpr ?_
    intro x hx
    have : x ∈ l := List.mem_reverse.mp hx
    simp only [ne_eq, decide_eq_true_eq]
    intro hxe
    exact h (hxe ▸ this)
  unfold rsplitSpaceHead
  rw [hnil]

theorem rsplitSpaceHead_space {l : List Char} (h : ' ' ∈ l) :
    ∃ t, rsplitSpaceHead l ++ ' ' :: t = l := by
  rcases dropWhile_shape (fun c => c ≠ ' ') l.reverse with hnil | ⟨tk, c, rest, h1, h2, h3⟩
  · exfalso
    have := List.dropWhile_eq_nil_iff.mp hnil ' ' (List.mem_reverse.mpr h)
    simp at this
  · have hc : c = ' ' := by simpa using h3
    subst hc
    refine ⟨tk.reverse, ?_⟩
    have : rsplitSpaceHead l = rest.reverse := by
      unfold rsplitSpaceHead
      rw [h2]
    rw [this]
    have hl : l = rest.reverse ++ ' ' :: tk.reverse := by
      have := congrArg List.reverse h1
      simpa [List.reverse_append] using this
    exact hl.symm

theorem rsplitSpaceHead_decomp (l : List Char) :
    ∃ t, rsplitSpaceHead l ++ t = l := by
  by_cases h : ' ' ∈ l
  · obtain ⟨t, ht⟩ := rsplitSpaceHead_space h
    exact ⟨' ' :: t, ht⟩
  · exact ⟨[], by simp [rsplitSpaceHead_no_space h]⟩

theorem rsplitSpaceHead_length_le (l : List Char) :
    (rsplitSpaceHead l).length ≤ l.length := by
  obtain ⟨t, ht⟩ := rsplitSpaceHead_decomp l
  have := congrArg List.length ht
  simp only [List.length_append] at this
  omega

/-! ## Claims -/

/-- Claim C2: on any failure of the remote enhancement call (the `except`
branch of `enhance_prompt`), the function returns exactly
`simple_prompt ++ ", " ++ style_suffix` when the style suffix is non-empty and
exactly `simple_prompt` when it is empty; the failure never propagates, the
result being an ordinary string in both cases. -/
theorem c2_enhance_degrades_gracefully (e simple_prompt style_suffix : String)
    (max_length : Nat) :
    (style_suffix ≠ "" →
      enhance_prompt (.error e) simple_prompt style_suffix max_length =
        simple_prompt ++ ", " ++ style_suffix) ∧
    (style_suffix = "" →
      enhance_prompt (.error e) simple_prompt style_suffix max_length = simple_prompt) := by
  constructor <;> intro h <;> simp [enhance_prompt, h]

/-- Witness for C2 at a concrete failure, prompt and style. -/
theorem c2_enhance_degrades_gracefully_witness :
    enhance_prompt (.error "network down") "cat" "anime style" 250 = "cat, anime style" ∧
    enhance_prompt (.error "network down") "cat" "" 250 = "cat" :=
  ⟨(c2_enhance_degrades_gracefully "network down" "cat" "anime style" 250).1 (by decide),
   (c2_enhance_degrades_gracefully "network down" "cat" "" 250).2 rfl⟩

/-- Claim C5: a request whose prompt is empty or consists only of whitespace
makes `api_generate` return the 400 client error, leave the shared status
record exactly as it was, and spawn no background task. -/
theorem c5_blank_prompt_rejected (req : GenRequest) (cur : GenStatus)
    (h : ∀ c ∈ (req.prompt.getD "").toList, pyIsSpace c = true) :
    api_generate req cur = (400, cur, none) := by
  have hstrip : pyStrip (req.prompt.getD "") = "" := by
    unfold pyStrip
    rw [stripChars_all_space h]
  simp [api_generate, hstrip]

/-- Witness for C5 at a whitespace-only prompt. -/
theorem c5_blank_prompt_rejected_witness :
    api_generate ⟨some "   ", some "anime", some "openrouter"⟩ initial_status =
      (400, initial_status, none) :=
  c5_blank_prompt_rejected ⟨some "   ", some "anime", some "openrouter"⟩ initial_status
    (by decide)

/-- Claim C7: the filename slug is computed from the first 30 characters only
(taking more characters of the prompt never changes it), every character of
the slug is an alphanumeric, a hyphen or an underscore (spaces having been
collapsed to underscores after stripping), the slug never exceeds 30
characters, and for the prompt "A red fox! Running, fast_2024" it is exactly
"A_red_fox_Running_fast_2024". -/
theorem c7_safe_prompt_slug :
    (∀ prompt : String,
      safe_prompt prompt = safe_prompt (String.mk (prompt.toList.take 30))) ∧
    (∀ prompt : String, ∀ c ∈ (safe_prompt prompt).toList,
      pyIsAlnum c = true ∨ c = '-' ∨ c = '_') ∧
    (∀ prompt : String, (safe_prompt prompt).toList.length ≤ 30) ∧
    safe_prompt "A red fox! Running, fast_2024" = "A_red_fox_Running_fast_2024" := by
  refine ⟨?_, ?_, ?_, by decide⟩
  · intro prompt
    unfold safe_prompt
    simp [List.take_take]
  · intro prompt c hc
    unfold safe_prompt at hc
    simp only [String.toList] at hc
    rw [List.mem_map] at hc
    obtain ⟨a, ha, hac⟩ := hc
    have ha2 : a ∈ (prompt.toList.take 30).filter slugKeep := stripChars_mem ha
    have hk : slugKeep a = true := (List.mem_filter.mp ha2).2
    by_cases hsp : a = ' '
    · right; right
      rw [← hac, hsp]
      simp
    · have hc2 : c = a := by rw [← hac]; simp [hsp]
      subst hc2
      unfold slugKeep at hk
      simp only [Bool.or_eq_true, decide_eq_true_eq] at hk
      rcases hk with ((h | h) | h) | h
      · exact Or.inl h
      · exact absurd h hsp
      · exact Or.inr (Or.inl h)
      · exact Or.inr (Or.inr h)
  · intro prompt
    unfold safe_prompt
    simp only [String.toList]
    rw [List.length_map]
    calc (stripChars ((prompt.toList.take 30).filter slugKeep)).length
        ≤ ((prompt.toList.take 30).filter slugKeep).length :=
          stripChars_length_le _
      _ ≤ (prompt.toList.take 30).length := List.length_filter_le _ _
      _ ≤ 30 := List.length_take_le _ _

/-- Claim C3, counterexample: the reply "abcdef" with `max_length = 5` and no
style becomes "abcde..." — eight characters, exceeding `max_length`, and cut
in the middle of the word. The claim's bound `length ≤ max_length` is false. -/
theorem c3_counterexample :
    enhance_prompt (.ok "abcdef") "orig" "" 5 = "abcde..." ∧
    5 < (enhance_prompt (.ok "abcdef") "orig" "" 5).length := by
  constructor <;> decide

/-- Claim C3, amended: for a successful remote reply whose stripped text is
longer than `max_length`, the part of the result preceding the style suffix is
`stripped[:max_length].rsplit(' ', 1)[0] + "..."`. It always ends with the
ellipsis marker; its length is at most `max_length + 3` — it can exceed
`max_length` by up to the three ellipsis characters; the kept text is a
whole-word prefix of the stripped reply (its next character there is a space)
whenever the first `max_length` characters contain a space, and otherwise is
the mid-word cut `stripped[:max_length]` itself. -/
theorem c3_truncation_amended (content : String) (max_length : Nat)
    (h : max_length < (stripChars content.toList).length) :
    (∀ p s, enhance_prompt (.ok content) p s max_length =
      if s = "" then enhancedCore content max_length
      else enhancedCore content max_length ++ ", " ++ s) ∧
    (∃ kept : List Char,
      enhancedCore content max_length = String.mk kept ++ "..." ∧
      kept.length ≤ max_length ∧
      (enhancedCore content max_length).length ≤ max_length + 3 ∧
      (' ' ∈ (stripChars content.toList).take max_length →
        ∃ t, kept ++ ' ' :: t = stripChars content.toList) ∧
      (' ' ∉ (stripChars content.toList).take max_length →
        kept = (stripChars content.toList).take max_length)) := by
  constructor
  · intro p s
    by_cases hs : s = ""
    · simp [enhance_prompt, hs]
    · simp [enhance_prompt, hs]
  · refine ⟨rsplitSpaceHead ((stripChars content.toList).take max_length), ?_, ?_, ?_, ?_, ?_⟩
    · unfold enhancedCore
      rw [if_pos h]
    · calc (rsplitSpaceHead ((stripChars content.toList).take max_length)).length
          ≤ ((stripChars content.toList).take max_length).length :=
            rsplitSpaceHead_length_le _
        _ ≤ max_length := List.length_take_le _ _
    · have h1 : (enhancedCore content max_length).length =
          (rsplitSpaceHead ((stripChars content.toList).take max_length)).length + 3 := by
        unfold enhancedCore
        rw [if_pos h]
        simp [String.length_append]
        decide
      rw [h1]
      have h2 : (rsplitSpaceHead ((stripChars content.toList).take max_length)).length
          ≤ max_length :=
        le_trans (rsplitSpaceHead_length_le _) (List.length_take_le _ _)
      omega
    · intro hmem
      obtain ⟨t, ht⟩ := rsplitSpaceHead_space hmem
      refine ⟨t ++ (stripChars content.toList).drop max_length, ?_⟩
      calc rsplitSpaceHead ((stripChars content.toList).take max_length) ++
            ' ' :: (t ++ (stripChars content.toList).drop max_length)
          = (rsplitSpaceHead ((stripChars content.toList).take max_length) ++ ' ' :: t) ++
              (stripChars content.toList).drop max_length := by
            simp [List.append_assoc]
        _ = (stripChars content.toList).take max_length ++
              (stripChars content.toList).drop max_length := by rw [ht]
        _ = stripChars content.toList := List.take_append_drop _ _
    · intro hmem
      exact rsplitSpaceHead_no_space hmem

/-- Witness for the amended C3: the stripped reply "hello brave new world"
with `max_length = 12` yields "hello brave..." (fourteen characters). -/
theorem c3_truncation_amended_witness :
    12 < (stripChars "  hello brave new world  ".toList).length ∧
    enhance_prompt (.ok "  hello brave new world  ") "p" "" 12 = "hello brave..." := by
  have h12 : 12 < (stripChars "  hello brave new world  ".toList).length := by decide
  have h := (c3_truncation_amended "  hello brave new world  " 12 h12).1 "p" ""
  refine ⟨h12, ?_⟩
  rw [h]
  decide

theorem pyStartsWith_ne_empty {s pre : String} (hpre : pre.toList ≠ [])
    (h : pyStartsWith s pre = true) : s ≠ "" := by
  intro he
  subst he
  unfold pyStartsWith at h
  match hp : pre.toList with
  | [] => exact hpre hp
  | c :: cs =>
    rw [hp] at h
    simp [List.isPrefixOf] at h

/-- Claim C1, counterexample: a message whose `images` field is a non-empty
list yielding no url, alongside a string `content` that is a data URI. The
shape-3 candidate list is non-empty, so the claim's "first non-empty candidate
list" would be the content string; the CLI extraction instead selects the
`images` shape structurally, finds no url there, and raises (`none`) without
ever consulting `content` — and the web-app normalizer
`_extract_data_urls_from_message` returns no candidate either. -/
theorem c1_counterexample :
    cli_extract_data_url (.pdict [("images", .plist [.pdict []]),
      ("content", .pstr "data:image/png;base64,AAA")]) = none ∧
    pyStartsWith "data:image/png;base64,AAA" "data:image" = true ∧
    extract_data_urls_from_message (.pdict [("images", .plist [.pdict []]),
      ("content", .pstr "data:image/png;base64,AAA")]) = [] := by
  refine ⟨by decide, by decide, by decide⟩

/-- Claim C1, amended: the CLI normalizer selects a shape by structural
precedence, not by non-emptiness of the extracted candidates — a truthy
`images` field is used exclusively (the result does not depend on any other
field, and when `images` yields no url the extraction fails rather than fall
through to the content shapes); otherwise a list-valued `content` is scanned
for an `image_url` item; otherwise a string-valued `content` is accepted
exactly when it begins with "data:image". In particular, a response exposing
only a string content beginning with "data:image/png;base64," yields that
exact string as the sole candidate, a response with none of the shapes yields
no candidate (`NoImageFoundError`), and the web-app normalizer
`_extract_data_urls_from_message` recognizes only the `images` shape, never
the content ones. -/
theorem c1_amended_normalizer (s : String) (imgs : PyVal)
    (rest : List (String × PyVal)) :
    (imgs.truthy = true →
      cli_extract_data_url (.pdict (("images", imgs) :: rest)) =
        cli_extract_data_url (.pdict [("images", imgs)])) ∧
    (pyStartsWith s "data:image" = true →
      cli_extract_data_url (.pdict [("content", .pstr s)]) = some s) ∧
    (pyStartsWith s "data:image" = false →
      cli_extract_data_url (.pdict [("content", .pstr s)]) = none) ∧
    cli_extract_data_url (.pdict []) = none ∧
    extract_data_urls_from_message (.pdict [("content", .pstr s)]) = [] := by
  refine ⟨?_, ?_, ?_, by decide, ?_⟩
  · intro h
    simp [cli_extract_data_url, PyVal.hasKey, PyVal.get, List.lookup, h]
  · intro h
    have hne : s ≠ "" := pyStartsWith_ne_empty (by decide) h
    simp [cli_extract_data_url, PyVal.hasKey, PyVal.get, PyVal.isStrVal,
      PyVal.isListVal, List.lookup, h, hne]
  · intro h
    simp [cli_extract_data_url, PyVal.hasKey, PyVal.get, PyVal.isStrVal,
      PyVal.isListVal, List.lookup, h]
  · simp [extract_data_urls_from_message, PyVal.get, PyVal.truthy, List.lookup]

/-- Witness for the amended C1 at concrete messages: the content particular,
the no-candidate particular at a non-data string, and the exclusivity of a
truthy `images` field. -/
theorem c1_amended_normalizer_witness :
    cli_extract_data_url (.pdict [("content", .pstr "data:image/png;base64,AAA")]) =
      some "data:image/png;base64,AAA" ∧
    cli_extract_data_url (.pdict [("content", .pstr "hello")]) = none ∧
    cli_extract_data_url (.pdict [("images", .plist [.pdict [("url",
      .pstr "data:image/png;base64,BBB")]]), ("content", .pstr "ignored")]) =
      cli_extract_data_url (.pdict [("images", .plist [.pdict [("url",
      .pstr "data:image/png;base64,BBB")]])]) :=
  ⟨(c1_amended_normalizer "data:image/png;base64,AAA" .pnone []).2.1 (by decide),
   (c1_amended_normalizer "hello" .pnone []).2.2.1 (by decide),
   (c1_amended_normalizer "x" (.plist [.pdict [("url", .pstr "data:image/png;base64,BBB")]])
     [("content", .pstr "ignored")]).1 (by decide)⟩

/-- Claim C4: within one run — the reset written by `api_generate` followed by
the writes of `generate_image_background` — progress is 0 at `starting`, 20
and 40 during `enhancing`, 60 at `generating`, and 100 at `done`; it stays in
[0, 100], is monotonically non-decreasing across every write, and the
transition to the `error` state leaves it unchanged (still 60, the value of
the preceding `generating` write). -/
theorem c4_progress_monotone (env : AdapterEnv) (er : Except String String)
    (p sk prov : String) :
    List.Chain' (fun a b => a.progress ≤ b.progress)
      (reset_status p :: generate_image_background env er p sk prov (reset_status p)) ∧
    (∀ st ∈ reset_status p :: generate_image_background env er p sk prov (reset_status p),
      st.progress ≤ 100) ∧
    (∀ path, generate_image env (enhance_prompt er p (styleFor sk).suffix 250) prov =
        .ok path →
      (reset_status p :: generate_image_background env er p sk prov (reset_status p)).map
          (fun st => (st.status, st.progress)) =
        [("starting", 0), ("enhancing", 20), ("enhancing", 40), ("generating", 60),
         ("done", 100)]) ∧
    (∀ e, generate_image env (enhance_prompt er p (styleFor sk).suffix 250) prov =
        .error e →
      (reset_status p :: generate_image_background env er p sk prov (reset_status p)).map
          (fun st => (st.status, st.progress)) =
        [("starting", 0), ("enhancing", 20), ("enhancing", 40), ("generating", 60),
         ("error", 60)]) := by
  rcases hg : generate_image env (enhance_prompt er p (styleFor sk).suffix 250) prov with
    e | path
  · refine ⟨?_, ?_, ?_, ?_⟩
    · simp [generate_image_background, reset_status, hg, List.chain'_cons]
    · intro st hst
      simp [generate_image_background, reset_status, hg] at hst
      rcases hst with h | h | h | h | h <;> subst h <;> simp
    · intro path hpath
      exact absurd hpath (by simp)
    · intro e' he'
      simp [generate_image_background, reset_status, hg]
  · refine ⟨?_, ?_, ?_, ?_⟩
    · simp [generate_image_background, reset_status, hg, List.chain'_cons]
    · intro st hst
      simp [generate_image_background, reset_status, hg] at hst
      rcases hst with h | h | h | h | h <;> subst h <;> simp
    · intro path' hpath
      simp [generate_image_background, reset_status, hg]
    · intro e' he'
      exact absurd he' (by simp)

/-- Witness for C4 at a concrete run: a succeeding adapter and a failing one. -/
theorem c4_progress_monotone_witness :
    ((reset_status "cat" :: generate_image_background ⟨fun _ => .ok "img.png", fun _ => .ok "o.png"⟩
        (.error "giga down") "cat" "anime" "proxyapi" (reset_status "cat")).map
      (fun st => (st.status, st.progress)) =
      [("starting", 0), ("enhancing", 20), ("enhancing", 40), ("generating", 60),
       ("done", 100)]) ∧
    ((reset_status "cat" :: generate_image_background ⟨fun _ => .error "api down", fun _ => .ok "o.png"⟩
        (.error "giga down") "cat" "anime" "proxyapi" (reset_status "cat")).map
      (fun st => (st.status, st.progress)) =
      [("starting", 0), ("enhancing", 20), ("enhancing", 40), ("generating", 60),
       ("error", 60)]) :=
  ⟨(c4_progress_monotone ⟨fun _ => .ok "img.png", fun _ => .ok "o.png"⟩ (.error "giga down")
      "cat" "anime" "proxyapi").2.2.1 "img.png" rfl,
   (c4_progress_monotone ⟨fun _ => .error "api down", fun _ => .ok "o.png"⟩ (.error "giga down")
      "cat" "anime" "proxyapi").2.2.2 "api down" rfl⟩

/-- Claim C6: any provider key other than the two registered ones makes the
dispatch `generate_image` raise `ValueError("Неизвестный провайдер: ...")`
whatever the adapters would do, and a background run with such a key always
ends in the `error` state with the `error` field carrying that message. -/
theorem c6_unknown_provider (prov : String)
    (h1 : prov ≠ "proxyapi") (h2 : prov ≠ "openrouter") :
    (∀ env prompt, generate_image env prompt prov =
      .error ("Неизвестный провайдер: " ++ prov)) ∧
    (∀ env er p sk st0, ∃ st : GenStatus,
      (generate_image_background env er p sk prov st0).getLast? = some st ∧
      st.status = "error" ∧ st.error = some ("Неизвестный провайдер: " ++ prov)) := by
  have hd : ∀ env prompt, generate_image env prompt prov =
      .error ("Неизвестный провайдер: " ++ prov) := by
    intro env prompt
    simp [generate_image, h1, h2]
  refine ⟨hd, ?_⟩
  intro env er p sk st0
  have hg := hd env (enhance_prompt er p (styleFor sk).suffix 250)
  simp only [generate_image_background, hg]
  exact ⟨_, rfl, rfl, rfl⟩

/-- Witness for C6 at the concrete key "dalle". -/
theorem c6_unknown_provider_witness :
    generate_image ⟨fun _ => .ok "a.png", fun _ => .ok "b.png"⟩ "x" "dalle" =
      .error "Неизвестный провайдер: dalle" ∧
    (∃ st : GenStatus,
      (generate_image_background ⟨fun _ => .ok "a.png", fun _ => .ok "b.png"⟩
          (.error "e") "cat" "none" "dalle" initial_status).getLast? = some st ∧
      st.status = "error" ∧ st.error = some ("Неизвестный провайдер: " ++ "dalle")) :=
  ⟨(c6_unknown_provider "dalle" (by decide) (by decide)).1
      ⟨fun _ => .ok "a.png", fun _ => .ok "b.png"⟩ "x",
   (c6_unknown_provider "dalle" (by decide) (by decide)).2
      ⟨fun _ => .ok "a.png", fun _ => .ok "b.png"⟩ (.error "e") "cat" "none" initial_status⟩

/-- Claim C9: a style key absent from the fixed catalog falls back silently to
the no-op style: the suffix used is the empty string and the whole background
run is identical to a run requesting the style "none"; enhancement and
generation proceed normally. -/
theorem c9_unknown_style_falls_back (sk : String) (h : STYLES.lookup sk = none) :
    styleFor sk = none_style ∧ (styleFor sk).suffix = "" ∧
    (∀ env er p prov st0,
      generate_image_background env er p sk prov st0 =
        generate_image_background env er p "none" prov st0) := by
  have h1 : styleFor sk = none_style := by simp [styleFor, h]
  have h2 : styleFor "none" = none_style := by decide
  refine ⟨h1, by simp [h1, none_style], ?_⟩
  intro env er p prov st0
  simp [generate_image_background, h1, h2]

/-- Witness for C9 at the concrete key "sketch". -/
theorem c9_unknown_style_falls_back_witness :
    styleFor "sketch" = none_style ∧
    generate_image_background ⟨fun _ => .ok "a.png", fun _ => .ok "b.png"⟩ (.error "e")
        "cat" "sketch" "proxyapi" initial_status =
      generate_image_background ⟨fun _ => .ok "a.png", fun _ => .ok "b.png"⟩ (.error "e")
        "cat" "none" "proxyapi" initial_status :=
  ⟨(c9_unknown_style_falls_back "sketch" (by decide)).1,
   (c9_unknown_style_falls_back "sketch" (by decide)).2.2
      ⟨fun _ => .ok "a.png", fun _ => .ok "b.png"⟩ (.error "e") "cat" "proxyapi"
      initial_status⟩

theorem entry_data_url_startsWith {img : PyVal} {u : String}
    (h : entry_data_url img = some u) : pyStartsWith u "data:image/" = true := by
  rcases img with _ | s | xs | fs
  · exact absurd h (by simp [entry_data_url])
  · exact absurd h (by simp [entry_data_url])
  · exact absurd h (by simp [entry_data_url])
  · simp only [entry_data_url] at h
    rcases hu : (pyOr (PyVal.get (PyVal.pdict fs) "image_url") (PyVal.pdict [])).get "url" with
      _ | s' | xs' | fs'
    all_goals rw [hu] at h
    · exact absurd h (by simp)
    · have h' : (if (decide (s' ≠ "") && pyStartsWith s' "data:image/") = true
          then some s' else none) = some u := h
      by_cases hb : (decide (s' ≠ "") && pyStartsWith s' "data:image/") = true
      · have hsu : s' = u := by
          rw [if_pos hb] at h'
          exact Option.some.inj h'
        subst hsu
        have hb2 := hb
        rw [Bool.and_eq_true] at hb2
        exact hb2.2
      · rw [if_neg hb] at h'
        exact absurd h' (by simp)
    · exact absurd h (by simp)
    · exact absurd h (by simp)

/-- Claim C10: every string produced by `_extract_data_urls_from_message`
begins with "data:image/"; this prefix check does not guarantee the
"base64," marker, on which the OpenRouter adapter's subsequent
`split("base64,", 1)[1]` relies — a message whose sole extracted url lacks the
marker passes the normalizer yet makes that split fail. -/
theorem c10_extracted_urls_data_image :
    (∀ message url, url ∈ extract_data_urls_from_message message →
      pyStartsWith url "data:image/" = true) ∧
    (∃ message url, extract_data_urls_from_message message = [url] ∧
      pyStartsWith url "data:image/" = true ∧ splitAfterBase64 url = none) := by
  constructor
  · intro message url hmem
    simp only [extract_data_urls_from_message] at hmem
    split at hmem
    · simp at hmem
    · split at hmem
      · rw [List.mem_filterMap] at hmem
        obtain ⟨a, _, ha⟩ := hmem
        exact entry_data_url_startsWith ha
      · simp at hmem
  · refine ⟨.pdict [("images", .plist [.pdict [("image_url",
      .pdict [("url", .pstr "data:image/png;hello")])]])], "data:image/png;hello",
      by decide, by decide, by decide⟩

/-- Witness for C10 at a concrete message and url. -/
theorem c10_extracted_urls_data_image_witness :
    ("data:image/png;base64,AAA" ∈ extract_data_urls_from_message (.pdict [("images",
      .plist [.pdict [("image_url", .pdict [("url", .pstr "data:image/png;base64,AAA")])]])])) ∧
    pyStartsWith "data:image/png;base64,AAA" "data:image/" = true :=
  ⟨by decide,
   c10_extracted_urls_data_image.1 (.pdict [("images",
      .plist [.pdict [("image_url", .pdict [("url", .pstr "data:image/png;base64,AAA")])]])])
      "data:image/png;base64,AAA" (by decide)⟩

theorem gallery_selection_length_le (fs : String → Option (List FileEntry))
    (provider : String) : (gallery_selection fs provider).length ≤ 10 := by
  unfold gallery_selection
  rcases fs provider with _ | files
  · simp
  · simp

theorem gallery_selection_sorted (fs : String → Option (List FileEntry))
    (provider : String) : List.Sorted newerFirst (gallery_selection fs provider) := by
  unfold gallery_selection
  rcases fs provider with _ | files
  · simp
  · exact List.Pairwise.sublist (List.take_sublist 10 _)
      (List.sorted_insertionSort newerFirst _)

theorem gallery_filter_length (fs : String → Option (List FileEntry)) (k p : String) :
    (((gallery_selection fs k).map (fun f =>
        ({ path := "generated_images/" ++ k ++ "/" ++ f.filename,
           filename := f.filename, provider := k } : GalleryImage))).filter
      (fun g => g.provider = p)).length =
    if k = p then (gallery_selection fs k).length else 0 := by
  rw [List.filter_map]
  by_cases hk : k = p
  · simp [Function.comp, hk]
  · simp [Function.comp, hk]

/-- Claim C8: for every filesystem state, the gallery lists at most 10 entries
per provider, and each provider's entries are sorted newest-first by file
modification time. -/
theorem c8_gallery_bounded_sorted (fs : String → Option (List FileEntry)) :
    (∀ provider, (gallery_selection fs provider).length ≤ 10 ∧
      List.Sorted newerFirst (gallery_selection fs provider)) ∧
    (∀ p, ((api_gallery fs).filter (fun g => g.provider = p)).length ≤ 10) := by
  constructor
  · intro provider
    exact ⟨gallery_selection_length_le fs provider, gallery_selection_sorted fs provider⟩
  · intro p
    unfold api_gallery
    rw [List.flatMap_cons, List.flatMap_cons, List.flatMap_nil, List.append_nil,
      List.filter_append, List.length_append, gallery_filter_length,
      gallery_filter_length]
    have hb1 := gallery_selection_length_le fs "proxyapi"
    have hb2 := gallery_selection_length_le fs "openrouter"
    by_cases hp1 : "proxyapi" = p
    · subst hp1
      rw [if_pos rfl, if_neg (by decide)]
      omega
    · by_cases hp2 : "openrouter" = p
      · subst hp2
        rw [if_neg (by decide), if_pos rfl]
        omega
      · rw [if_neg hp1, if_neg hp2]
        decide

/-- Witness for C7's character property at a concrete prompt and character. -/
theorem c7_safe_prompt_slug_witness :
    ('A' ∈ (safe_prompt "A red fox! Running, fast_2024").toList) ∧
    (pyIsAlnum 'A' = true ∨ 'A' = '-' ∨ 'A' = '_') :=
  ⟨by decide, c7_safe_prompt_slug.2.1 "A red fox! Running, fast_2024" 'A' (by decide)⟩
